import Mathlib

/-!
# Verification of the AI todo manager's analytics and parsing pipeline

Shallow embedding of the repository's two AI route handlers
(`POST /api/ai/parse-todo`, `POST /api/ai/summary`) and the per-task CRUD
route (`PUT`/`DELETE /api/todos/[id]`), together with proofs of the
testable properties stated in the specification.

Modelling conventions:
* JavaScript strings are modelled as Lean `String`s (sequences of code
  points).  All inputs used in concrete witnesses stay inside the basic
  multilingual plane, where code-point length and JS UTF-16 length agree.
* JavaScript numbers — the percentage statistics and the model-supplied
  `priority` — are modelled as exact rationals; `Math.round` is
  `⌊q + 1/2⌋` (round half-up), its behaviour on the rationals appearing
  here.  In particular a fractional model priority such as 2.5 flows
  through the range check and the `Math.max`/`Math.min` clamp unchanged,
  as in the source.
* `new Date(s)` for the `YYYY-MM-DD` strings the routes compare is
  modelled by `jsDateParse`, returning the UTC-midnight timestamp in
  milliseconds, or `none` for an invalid date (comparisons against an
  invalid date are `false`, as with `NaN`).
* The LLM is an opaque collaborator: its reply is a parameter, abstracted
  to either a parsed JSON object (absent JSON fields are `none`) or a
  JSON-extraction failure.  Prompt construction is not modelled (it only
  feeds the opaque model).  Provider-thrown errors (rate limit, auth,
  network) and the missing-API-key configuration error are outside the
  model, as is the relational store behind the summary route, whose query
  results enter as list parameters.
* `Array.prototype.sort` with a consistent comparator is a stable sort by
  the comparator's total preorder; it is embedded as insertion sort with
  the corresponding non-strict key order.
-/

namespace AiTodo

/-! ## JavaScript character and string primitives -/

/-- The characters matched by the JS regex class `\s` (the common ones:
space, tab, newline, carriage return, vertical tab, form feed). -/
def isSpaceChar (c : Char) : Bool :=
  c = ' ' || c = '\t' || c = '\n' || c = '\r' || c.val = 11 || c.val = 12

/-- The JS regex class `\w`: ASCII letters, digits and underscore. -/
def isWordChar (c : Char) : Bool :=
  c.isAlpha || c.isDigit || c = '_'

/-- `String.prototype.trim`, on the character list. -/
def jsTrimList (l : List Char) : List Char :=
  ((l.dropWhile isSpaceChar).reverse.dropWhile isSpaceChar).reverse

/-- `String.prototype.trim`. -/
def jsTrimStr (s : String) : String :=
  String.mk (jsTrimList s.toList)

/-- `input.replace(/\s/g, '').length`: the number of non-whitespace
characters. -/
def meaningfulLen (s : String) : Nat :=
  (s.toList.filter (fun c => !isSpaceChar c)).length

/-- State machine for `replace(/\s+/g, ' ')`: each maximal whitespace run
becomes a single space.  The flag records whether the previous character
was part of a whitespace run. -/
def collapseGo : Bool → List Char → List Char
  | _, [] => []
  | prevWs, c :: rest =>
    if isSpaceChar c then
      if prevWs then collapseGo true rest else ' ' :: collapseGo true rest
    else c :: collapseGo false rest

/-- `replace(/\s+/g, ' ')`. -/
def collapseWs (l : List Char) : List Char :=
  collapseGo false l

/-- `replace(/\b\w/g, toUpperCase)` on an already lowercased list: a word
character at a word boundary (start, or after a non-word character) is
upper-cased.  The flag records whether the previous character was a word
character. -/
def capWords : Bool → List Char → List Char
  | _, [] => []
  | prevW, c :: rest =>
    (if isWordChar c && !prevW then c.toUpper else c) :: capWords (isWordChar c) rest

/-- The allow-list of the final `replace` in `preprocessInput`: word
characters, whitespace, Hangul syllables (AC00–D7A3), Hangul jamo
(3131–314E consonants, 314F–3163 vowels) and the punctuation listed in
the regex character class. -/
def allowedChar (c : Char) : Bool :=
  isWordChar c || isSpaceChar c ||
  (0xAC00 ≤ c.val && c.val ≤ 0xD7A3) ||
  (0x3131 ≤ c.val && c.val ≤ 0x314E) ||
  (0x314F ≤ c.val && c.val ≤ 0x3163) ||
  [46, 44, 33, 63, 64, 35, 36, 37, 94, 38, 42, 40, 41, 95, 43, 45, 61,
   91, 93, 123, 125, 124, 59, 39, 58, 34, 92, 60, 62, 47, 126,
   96].contains c.val.toNat

/-- `preprocessInput` from the parse route: trim, collapse whitespace
runs, lowercase then capitalize word starts, strip characters outside the
allow-list. -/
def preprocessInput (s : String) : String :=
  let l1 := jsTrimList s.toList
  let l2 := collapseWs l1
  let l3 := capWords false (l2.map Char.toLower)
  String.mk (l3.filter allowedChar)

/-! ## JavaScript date model -/

/-- Gregorian leap year. -/
def isLeapYear (y : Int) : Bool :=
  (y % 4 = 0 && y % 100 ≠ 0) || y % 400 = 0

/-- Days in a month of a given year. -/
def daysInMonth (y : Int) (m : Nat) : Nat :=
  if m = 1 ∨ m = 3 ∨ m = 5 ∨ m = 7 ∨ m = 8 ∨ m = 10 ∨ m = 12 then 31
  else if m = 4 ∨ m = 6 ∨ m = 9 ∨ m = 11 then 30
  else if isLeapYear y then 29 else 28

/-- Days since the Unix epoch of a civil date (standard civil-from-days
inverse; floor division handles years before the epoch). -/
def daysFromCivil (y : Int) (m d : Nat) : Int :=
  let y' : Int := if m ≤ 2 then y - 1 else y
  let era : Int := Int.fdiv y' 400
  let yoe : Int := y' - era * 400
  let mp : Int := if m > 2 then (m : Int) - 3 else (m : Int) + 9
  let doy : Int := Int.ediv (153 * mp + 2) 5 + (d : Int) - 1
  let doe : Int := yoe * 365 + Int.ediv yoe 4 - Int.ediv yoe 100 + doy
  era * 146097 + doe - 719468

/-- Decimal value of a digit character. -/
def digitVal (c : Char) : Nat := c.toNat - 48

/-- `new Date(s).getTime()` for strict ISO `YYYY-MM-DD` strings: the
UTC-midnight timestamp in milliseconds, or `none` (an invalid date) when
the string is not a well-formed calendar date.  Strings of any other
shape are reset to today by the routes' final format checks, so only this
format matters for the embedded comparisons. -/
def jsDateParse (s : String) : Option Int :=
  match s.toList with
  | [y1, y2, y3, y4, h1, m1, m2, h2, d1, d2] =>
    if y1.isDigit && y2.isDigit && y3.isDigit && y4.isDigit &&
       h1 = '-' && m1.isDigit && m2.isDigit && h2 = '-' && d1.isDigit && d2.isDigit then
      let y : Int := (digitVal y1 * 1000 + digitVal y2 * 100 + digitVal y3 * 10 + digitVal y4 : Nat)
      let m : Nat := digitVal m1 * 10 + digitVal m2
      let d : Nat := digitVal d1 * 10 + digitVal d2
      if 1 ≤ m && m ≤ 12 && 1 ≤ d && d ≤ daysInMonth y m then
        some (86400000 * daysFromCivil y m d)
      else none
    else none
  | _ => none

/-- `new Date(a) < new Date(b)`: `false` when either side is invalid
(`NaN` comparisons). -/
def jsDateLt (a b : String) : Bool :=
  match jsDateParse a, jsDateParse b with
  | some x, some y => decide (x < y)
  | _, _ => false

/-- The final format check `/^\d{4}-\d{2}-\d{2}$/` of the parse route. -/
def dateRegexMatch (s : String) : Bool :=
  match s.toList with
  | [a, b, c, d, e, f, g, h, i, j] =>
    a.isDigit && b.isDigit && c.isDigit && d.isDigit && e = '-' &&
    f.isDigit && g.isDigit && h = '-' && i.isDigit && j.isDigit
  | _ => false

/-- The final time check `/^([01]?[0-9]|2[0-3]):[0-5][0-9]$/` of the
parse route; note the optional leading hour digit. -/
def timeRegexMatch (s : String) : Bool :=
  match s.toList with
  | [h, c, m1, m2] =>
    h.isDigit && c = ':' && ('0' ≤ m1 && m1 ≤ '5') && m2.isDigit
  | [h1, h2, c, m1, m2] =>
    ((h1 = '0' || h1 = '1') && h2.isDigit || h1 = '2' && ('0' ≤ h2 && h2 ≤ '3')) &&
    c = ':' && ('0' ≤ m1 && m1 ≤ '5') && m2.isDigit
  | _ => false

/-- Strict `HH:MM` 24-hour format with a mandatory two-digit hour.
Modelled from the spec's words ("a string in `HH:MM` 24-hour format"),
for comparison with the code's laxer `timeRegexMatch`. -/
def specHHMM (s : String) : Bool :=
  match s.toList with
  | [h1, h2, c, m1, m2] =>
    ((h1 = '0' || h1 = '1') && h2.isDigit || h1 = '2' && ('0' ≤ h2 && h2 ≤ '3')) &&
    c = ':' && ('0' ≤ m1 && m1 ≤ '5') && m2.isDigit
  | _ => false

/-! ## Natural-language task parser (`POST /api/ai/parse-todo`) -/

/-- `validateInput` from the parse route.  Returns the declared error
code, or `none` when the input passes.  (The TS function's first branch
returns `MISSING_INPUT` for `null`; a Lean `String` cannot be null, so
that branch lives in the route embedding, which also catches `null`
before ever calling this function.) -/
def validateInput (s : String) : Option String :=
  if s.length = 0 then some ("EMPTY_INPUT")
  else if meaningfulLen s = 0 then some ("INVALID_CONTENT")
  else if meaningfulLen s < 2 then some ("TOO_SHORT")
  else if s.length > 500 then some ("TOO_LONG")
  else none

/-- An entry of the model's `tags` array: a JSON string or some non-string
value (dropped by the `typeof tag === 'string'` filter). -/
inductive TagEntry where
  | str (s : String)
  | nonstr
deriving DecidableEq

/-- The JSON object parsed from the model's reply (`ParsedTodoData`).
`none` models an absent field.  JSON `null` for `due_time` behaves like
an absent field everywhere it is read (both are falsy), so it is also
`none`.  The JSON number `priority` is an arbitrary JS number, modelled
as an exact rational: a fractional value such as 2.5 passes the range
check and the final clamp unchanged, exactly as in the source. -/
structure ParsedTodoData where
  title : Option String := none
  description : Option String := none
  due_date : Option String := none
  due_time : Option String := none
  priority : Option ℚ := none
  tags : Option (List TagEntry) := none
deriving DecidableEq

/-- JS truthiness of a possibly-absent string: present and non-empty. -/
def strTruthy : Option String → Bool
  | some s => s ≠ ""
  | none => false

/-- The validated task draft returned by the parse route.  Its priority
is the clamped JS number, a rational. -/
structure TaskDraft where
  title : String
  description : String
  due_date : String
  due_time : Option String
  priority : ℚ
  status : String
  tags : List String
deriving DecidableEq

/-- `postprocessData` from the parse route, with the route's current date
string `today` as a parameter. -/
def postprocessData (today : String) (data : ParsedTodoData) : ParsedTodoData :=
  let title1 : Option String :=
    match data.title with
    | some s => if s ≠ "" ∧ s.length > 200 then some (String.mk (s.toList.take 200) ++ ("...")) else some s
    | none => none
  let title2 : Option String :=
    match title1 with
    | some s => if s ≠ "" ∧ s.length < 2 then some ("새 할 일") else some s
    | none => none
  let due1 : Option String :=
    match data.due_date with
    | some s => if s ≠ "" then (if jsDateLt s today then some today else some s) else some today
    | none => some today
  let prio1 : Option ℚ :=
    match data.priority with
    | some p => if p ≠ 0 ∧ (p < 1 ∨ p > 3) then some 2 else some p
    | none => none
  let tags1 : Option (List String) :=
    match data.tags with
    | some l =>
      some ((l.filterMap (fun e =>
        match e with
        | .str s => if jsTrimStr s ≠ "" then some (jsTrimStr s) else none
        | .nonstr => none)).take 3)
    | none => some []
  { data with title := title2, due_date := due1,
              priority := prio1,
              tags := some ((tags1.getD []).map TagEntry.str) }

/-- The post-processed tag list as plain strings (the `tags` field of
`postprocessData`'s result is a list of string entries by construction). -/
def tagStrings (l : Option (List TagEntry)) : List String :=
  (l.getD []).filterMap (fun e => match e with | .str s => some s | .nonstr => none)

/-- The `validatedData` object built by the parse route after
`postprocessData`, including the final date- and time-format checks. -/
def buildDraft (today processed : String) (pd : ParsedTodoData) : TaskDraft :=
  let p := postprocessData today pd
  let title :=
    match p.title with
    | some s => if s ≠ "" then s else jsTrimStr processed
    | none => jsTrimStr processed
  let descr :=
    match p.description with
    | some s => if s ≠ "" then s else ""
    | none => ""
  let due :=
    match p.due_date with
    | some s => if s ≠ "" then s else today
    | none => today
  let time : Option String :=
    match p.due_time with
    | some s => if s ≠ "" then some s else none
    | none => none
  let prio : ℚ :=
    max 1 (min 3 (match p.priority with
      | some q => if q ≠ 0 then q else 2
      | none => 2))
  let due' := if dateRegexMatch due then due else today
  let time' : Option String :=
    match time with
    | some t => if timeRegexMatch t then some t else none
    | none => none
  ⟨title, descr, due', time', prio, ("pending"), tagStrings p.tags⟩

/-- The model call's outcome, as seen after the route's JSON extraction
(`text.match` of the first-to-last-brace span followed by `JSON.parse`):
either a parsed JSON object or a parse failure. -/
inductive ModelOutcome where
  | parsed (d : ParsedTodoData)
  | unparseable
deriving DecidableEq

/-- A parse-route response: a created draft, or an error with HTTP status
and the machine-readable `code` field when the handler sets one. -/
inductive ParseResult where
  | ok (draft : TaskDraft)
  | fail (status : Nat) (code : Option String)
deriving DecidableEq

def ParseResult.isOk : ParseResult → Bool
  | .ok _ => true
  | .fail _ _ => false

/-- The draft of a successful result (a placeholder draft otherwise). -/
def ParseResult.draftD : ParseResult → TaskDraft
  | .ok d => d
  | .fail _ _ => ⟨"", "", "", none, 2, ("pending"), []⟩

/-- The `POST /api/ai/parse-todo` handler.  `input` is the request body's
`input` field (`none` models an absent, null or non-string value); `m` is
the model call's outcome; `today` is the handler's current date string.
The missing-API-key configuration error and provider-thrown errors
(rate limit, auth, network) are outside the model. -/
def parseTodoPOST (today : String) (input : Option String) (m : ModelOutcome) : ParseResult :=
  match input with
  | none => .fail 400 (some ("MISSING_INPUT"))
  | some s =>
    if s = "" then .fail 400 (some ("MISSING_INPUT"))
    else
      match validateInput s with
      | some code => .fail 400 (some code)
      | none =>
        match m with
        | .unparseable => .fail 500 none
        | .parsed d => .ok (buildDraft today (preprocessInput s) d)

/-! ## Stable sorting by a key

`Array.prototype.sort` with a consistent comparator is a stable sort for
the comparator's total preorder.  Both comparators of the summary route
compare a key drawn from a linear order (`priority`, or the pair
(not-due-today, `priority`) ordered lexicographically), so the sorts are
embedded as `List.insertionSort` with the non-strict key order, which is
that stable sort. -/

/-- The non-strict order induced by a key into a linear order. -/
def keyLe {α γ : Type} [LinearOrder γ] (k : α → γ) (a b : α) : Prop :=
  k a ≤ k b

instance {α γ : Type} [LinearOrder γ] (k : α → γ) : DecidableRel (keyLe k) :=
  fun a b => inferInstanceAs (Decidable (k a ≤ k b))

instance {α γ : Type} [LinearOrder γ] (k : α → γ) : IsTotal α (keyLe k) :=
  ⟨fun a b => le_total (k a) (k b)⟩

instance {α γ : Type} [LinearOrder γ] (k : α → γ) : IsTrans α (keyLe k) :=
  ⟨fun _ _ _ h1 h2 => le_trans h1 h2⟩

/-! ## Summary route (`POST /api/ai/summary`) -/

/-- A task row as returned by the store for the summary route.  The
timestamp columns `created_at`/`updated_at` enter as their epoch values in
milliseconds (`new Date(isoString).getTime()`); `updated_at = none`
models a null column.  `tags = none` models a null column
(`todo.tags || []`). -/
structure Todo where
  title : String
  status : String
  priority : Int
  due_date : Option String
  created_at : Int
  updated_at : Option Int
  tags : Option (List String)
deriving DecidableEq

def pendingTodos (ts : List Todo) : List Todo :=
  ts.filter (fun t => t.status == "pending")

def completedTodos (ts : List Todo) : List Todo :=
  ts.filter (fun t => t.status == "completed")

/-- `Math.round` on the exact rational value: round half-up. -/
def jsRound (q : ℚ) : ℤ := ⌊q + 1 / 2⌋

/-- `completionRate`: `Math.round((completed / total) * 100)`, `0` for an
empty record set. -/
def completionRate (ts : List Todo) : ℤ :=
  if ts.length > 0 then
    jsRound ((((completedTodos ts).length : ℚ) / (ts.length : ℚ)) * 100)
  else 0

/-- A completed task counted as on time: no (truthy) due date, or the
completion timestamp (`updated_at`, falling back to `created_at`) is at
most the due date; a due date that does not parse makes the comparison
false (`NaN`). -/
def onTime (t : Todo) : Bool :=
  match t.due_date with
  | none => true
  | some s =>
    if s = "" then true
    else
      match jsDateParse s with
      | some ms => decide (t.updated_at.getD t.created_at ≤ ms)
      | none => false

/-- `deadlineComplianceRate`: percentage of completed tasks that were on
time, `0` when nothing is completed. -/
def deadlineComplianceRate (ts : List Todo) : ℤ :=
  let comp := completedTodos ts
  if comp.length > 0 then
    jsRound ((((comp.filter onTime).length : ℚ) / (comp.length : ℚ)) * 100)
  else 0

/-- A task counted as postponed: truthy due date and `updated_at`,
updated after creation, not completed, and updated after the due date
(false when the due date does not parse, as `NaN` comparisons are). -/
def postponed (t : Todo) : Bool :=
  match t.due_date, t.updated_at with
  | some s, some u =>
    if s = "" then false
    else
      match jsDateParse s with
      | some due => decide (u > t.created_at) && t.status != "completed" && decide (u > due)
      | none => false
  | _, _ => false

/-- `postponementRate`: percentage of postponed tasks, `0` for an empty
record set. -/
def postponementRate (ts : List Todo) : ℤ :=
  if ts.length > 0 then
    jsRound ((((ts.filter postponed).length : ℚ) / (ts.length : ℚ)) * 100)
  else 0

/-- The projection used for both `remainingTodos` and `focusTasks`
entries. -/
structure TaskListItem where
  title : String
  priority : Int
  due_date : Option String
  tags : List String
deriving DecidableEq

def todoItem (t : Todo) : TaskListItem :=
  ⟨t.title, t.priority, t.due_date, t.tags.getD []⟩

/-- `remainingTodos`: the pending tasks sorted ascending by priority
(stable), projected. -/
def remainingTodos (ts : List Todo) : List TaskListItem :=
  ((pendingTodos ts).insertionSort (keyLe Todo.priority)).map todoItem

/-- `todo.due_date === today`. -/
def isDueToday (today : String) (t : Todo) : Bool :=
  t.due_date == some today

/-- `todo.due_date && new Date(todo.due_date) <= new Date(Date.now() +
2 * 24 * 60 * 60 * 1000)`. -/
def isDueSoon (nowMs : Int) (t : Todo) : Bool :=
  match t.due_date with
  | some s =>
    if s = "" then false
    else
      match jsDateParse s with
      | some ms => decide (ms ≤ nowMs + 2 * 24 * 60 * 60 * 1000)
      | none => false
  | none => false

/-- The `focusTasks` filter: high priority, due today, or due soon. -/
def focusPred (today : String) (nowMs : Int) (t : Todo) : Bool :=
  t.priority == 1 || isDueToday today t || isDueSoon nowMs t

/-- The sort key of the `focusTasks` comparator: due-today first
(`false < true`), then priority ascending. -/
def focusKey (today : String) (t : Todo) : Bool ×ₗ Int :=
  toLex (!isDueToday today t, t.priority)

/-- `focusTasks`: pending tasks passing `focusPred`, stably sorted by
`focusKey`, capped at 5, projected. -/
def focusTasks (today : String) (nowMs : Int) (ts : List Todo) : List TaskListItem :=
  ((((pendingTodos ts).filter (focusPred today nowMs)).insertionSort
      (keyLe (focusKey today))).take 5).map todoItem

/-- `completionAnalysis` sub-object of the summary report. -/
structure CompletionAnalysis where
  rate : String
  trend : String
  strengths : String
deriving DecidableEq

/-- `timeManagement` sub-object of the summary report. -/
structure TimeManagement where
  deadlineCompliance : String
  postponementPattern : String
  productiveHours : String
deriving DecidableEq

/-- `productivityPatterns` sub-object of the summary report. -/
structure ProductivityPatterns where
  bestPerformingAreas : String
  strugglingAreas : String
  priorityEffectiveness : String
deriving DecidableEq

/-- `motivation` sub-object of the summary report. -/
structure Motivation where
  achievements : String
  encouragement : String
  nextSteps : String
deriving DecidableEq

/-- The JSON object parsed from the summary model's reply.  `none` models
a field whose reconciliation check fails: absent (or, for the
array-checked fields, not an array; for the others, falsy). -/
structure SummaryParsedData where
  summary : Option String := none
  urgentTasks : Option (List String) := none
  completionAnalysis : Option CompletionAnalysis := none
  timeManagement : Option TimeManagement := none
  productivityPatterns : Option ProductivityPatterns := none
  insights : Option (List String) := none
  recommendations : Option (List String) := none
  motivation : Option Motivation := none
deriving DecidableEq

/-- A summary response body.  `none` marks a field that is absent from
the returned JSON object (the empty-record-set early return sets only
four fields). -/
structure SummaryResponse where
  summary : Option String := none
  urgentTasks : Option (List String) := none
  remainingTodos : Option (List TaskListItem) := none
  focusTasks : Option (List TaskListItem) := none
  completionAnalysis : Option CompletionAnalysis := none
  timeManagement : Option TimeManagement := none
  productivityPatterns : Option ProductivityPatterns := none
  insights : Option (List String) := none
  recommendations : Option (List String) := none
  motivation : Option Motivation := none
deriving DecidableEq

/-- The summary model call's outcome after JSON extraction. -/
inductive SummaryModelOutcome where
  | parsed (d : SummaryParsedData)
  | unparseable
deriving DecidableEq

/-- A summary-route result: success body, or error status with the
machine-readable `code` when the handler sets one. -/
inductive SummaryResult where
  | ok (r : SummaryResponse)
  | err (status : Nat) (code : Option String)
deriving DecidableEq

def SummaryResult.isOk : SummaryResult → Bool
  | .ok _ => true
  | .err _ _ => false

/-- The body of a successful result (an empty body otherwise). -/
def SummaryResult.respD : SummaryResult → SummaryResponse
  | .ok r => r
  | .err _ _ => {}

/-- The Korean period label (`'오늘'` or `'이번 주'`). -/
def periodLabel (period : String) : String :=
  if period = "today" then ("오늘") else ("이번 주")

/-- The `validatedData` object of the summary route: each model field is
kept when its check passes, otherwise replaced by its deterministic
default computed from the analytics. -/
def buildSummaryResponse (period : String) (todos previousTodos : List Todo)
    (today : String) (nowMs : Int) (d : SummaryParsedData) : SummaryResponse :=
  let cr := completionRate todos
  let prevCr := completionRate previousTodos
  let crChange := cr - prevCr
  let dcr := deadlineComplianceRate todos
  let pr := postponementRate todos
  let completedCount := (completedTodos todos).length
  { summary := some (if strTruthy d.summary then d.summary.getD ("") else
      periodLabel period ++ (" 총 ") ++ toString todos.length ++ ("개의 할 일 중 ")
        ++ toString completedCount ++ ("개 완료 (") ++ toString cr ++ ("%)")),
    urgentTasks := some (d.urgentTasks.getD []),
    remainingTodos := some (remainingTodos todos),
    focusTasks := some (focusTasks today nowMs todos),
    completionAnalysis := some (d.completionAnalysis.getD
      { rate := ("완료율 ") ++ toString cr ++ ("%"),
        trend := if crChange > 0 then ("이전 기간 대비 향상") else ("안정적인 수준 유지"),
        strengths := ("꾸준한 진행을 보이고 있습니다") }),
    timeManagement := some (d.timeManagement.getD
      { deadlineCompliance := ("마감일 준수율 ") ++ toString dcr ++ ("%"),
        postponementPattern := if pr > 0 then ("일부 연기 발생") else ("계획대로 진행"),
        productiveHours := ("다양한 시간대에 고른 활동") }),
    productivityPatterns := some (d.productivityPatterns.getD
      { bestPerformingAreas := ("기본적인 할 일 관리를 잘하고 있습니다"),
        strugglingAreas := ("더 많은 데이터로 패턴을 분석해보세요"),
        priorityEffectiveness := ("우선순위 설정이 도움이 되고 있습니다") }),
    insights := some (d.insights.getD
      [("더 많은 할 일을 추가하시면 더 자세한 분석을 제공할 수 있습니다")]),
    recommendations := some (d.recommendations.getD
      [("꾸준히 할 일을 관리하고 있으니 계속 진행하세요")]),
    motivation := some (d.motivation.getD
      { achievements := periodLabel period ++ (" ") ++ toString completedCount
          ++ ("개의 할 일을 완료했습니다!"),
        encouragement := ("꾸준한 노력이 보기 좋습니다"),
        nextSteps := ("다음에도 이런 속도로 진행해보세요") }) }

/-- The `POST /api/ai/summary` handler.  `todos` and `previousTodos` are
the two owner-scoped window queries' results; `today`/`nowMs` are the
handler's current date string and `Date.now()`; `m` is the model call's
outcome (unused when the record set is empty, since the handler returns
early before calling the model).  The missing-API-key error, store
errors, and provider-thrown errors are outside the model. -/
def summaryPOST (period : String) (user : Option Nat) (todos previousTodos : List Todo)
    (today : String) (nowMs : Int) (m : SummaryModelOutcome) : SummaryResult :=
  if ¬ (period = "today" ∨ period = "week") then .err 400 (some ("INVALID_PERIOD"))
  else
    match user with
    | none => .err 401 none
    | some _ =>
      if todos.length = 0 then
        .ok { summary := some (if period = "today" then ("오늘 등록된 할 일이 없습니다.")
                else ("이번 주 등록된 할 일이 없습니다.")),
              urgentTasks := some [],
              insights := some [("새로운 할 일을 추가해보세요!")],
              recommendations := some [("할 일을 추가하여 생산성을 높여보세요.")] }
      else
        match m with
        | .unparseable => .err 500 (some ("PARSE_ERROR"))
        | .parsed d => .ok (buildSummaryResponse period todos previousTodos today nowMs d)

/-! ## Per-task CRUD route (`PUT`/`DELETE /api/todos/[id]`)

The relational store is modelled as a list of owner-scoped rows; the
PostgREST combinators are modelled by their row semantics:
`update(..).eq(id).eq(user_id)` mutates every matching row,
`.select().single()` yields error `PGRST116` (mapped to 404) unless
exactly one row matched, and `delete().eq(id).eq(user_id)` removes the
matching rows and reports no error when none matched. -/

/-- A JSON field value that is a string or `null`. -/
inductive JStr where
  | jnull
  | jstr (s : String)
deriving DecidableEq

/-- The request body of `PUT /api/todos/[id]`; `none` models an absent
(`undefined`) field. -/
structure UpdateBody where
  title : Option JStr := none
  description : Option JStr := none
  due_date : Option JStr := none
  status : Option String := none
  priority : Option Int := none
deriving DecidableEq

/-- A stored task row. -/
structure StoredTodo where
  id : Nat
  user_id : Nat
  title : String
  description : Option String
  due_date : Option String
  status : String
  priority : Int
deriving DecidableEq

/-- A CRUD-route response: a task body, the deletion-confirmation
message, or an error status. -/
inductive TodoRouteResult where
  | okTodo (t : StoredTodo)
  | okMsg
  | err (status : Nat)
deriving DecidableEq

def TodoRouteResult.status : TodoRouteResult → Nat
  | .okTodo _ => 200
  | .okMsg => 200
  | .err s => s

/-- The `updateData` object applied to a row: only the body fields that
are present are written (`description` is trimmed with empty collapsing
to null, `due_date` has falsy values collapsing to null).  A null `title`
never reaches this point (the handler has already returned 400). -/
def applyUpdate (b : UpdateBody) (t : StoredTodo) : StoredTodo :=
  { t with
    title := match b.title with
      | some (.jstr s) => jsTrimStr s
      | _ => t.title,
    description := match b.description with
      | some (.jstr s) => if jsTrimStr s = "" then none else some (jsTrimStr s)
      | some .jnull => none
      | none => t.description,
    due_date := match b.due_date with
      | some (.jstr s) => if s = "" then none else some s
      | some .jnull => none
      | none => t.due_date,
    status := b.status.getD t.status,
    priority := b.priority.getD t.priority }

/-- The PUT handler's title validation: a present title that is falsy
(null or empty) or trims to the empty string is rejected. -/
def titleInvalid (b : UpdateBody) : Bool :=
  match b.title with
  | some .jnull => true
  | some (.jstr s) => s = "" || jsTrimStr s = ""
  | none => false

/-- The `PUT /api/todos/[id]` handler: returns the response together with
the store after the request. -/
def putTodo (store : List StoredTodo) (user : Option Nat) (todoId : Nat)
    (body : UpdateBody) : TodoRouteResult × List StoredTodo :=
  match user with
  | none => (.err 401, store)
  | some uid =>
    if titleInvalid body then (.err 400, store)
    else
      let found := store.filter (fun t => t.id == todoId && t.user_id == uid)
      let store' := store.map (fun t =>
        if t.id == todoId && t.user_id == uid then applyUpdate body t else t)
      match found with
      | [t] => (.okTodo (applyUpdate body t), store')
      | _ => (.err 404, store')

/-- The `DELETE /api/todos/[id]` handler: removes the caller's matching
rows; the response is the 200 confirmation message whether or not any row
matched (there is no `.single()` on the delete query). -/
def deleteTodo (store : List StoredTodo) (user : Option Nat) (todoId : Nat) :
    TodoRouteResult × List StoredTodo :=
  match user with
  | none => (.err 401, store)
  | some uid =>
    (.okMsg, store.filter (fun t => !(t.id == todoId && t.user_id == uid)))

/-- All ten fields of a summary response are present. -/
def fullyPopulated (r : SummaryResponse) : Bool :=
  r.summary.isSome && r.urgentTasks.isSome && r.remainingTodos.isSome &&
  r.focusTasks.isSome && r.completionAnalysis.isSome && r.timeManagement.isSome &&
  r.productivityPatterns.isSome && r.insights.isSome && r.recommendations.isSome &&
  r.motivation.isSome

/-- A single stored row used by concrete witnesses: task 1 owned by
user 2. -/
def demoRow : StoredTodo :=
  ⟨1, 2, ("x"), none, none, ("pending"), 2⟩

/-- A single pending task used by concrete witnesses. -/
def demoTodo : Todo :=
  ⟨("t"), ("pending"), 2, none, 0, none, none⟩

/-- A completed variant of `demoTodo`. -/
def demoDone : Todo :=
  ⟨("t"), ("completed"), 2, none, 0, none, none⟩

/-- A pending high-priority task used by concrete witnesses. -/
def demoUrgent : Todo :=
  ⟨("u"), ("pending"), 1, none, 0, none, none⟩

/-- Ten tasks, seven of them completed (the spec's completion-rate
scenario). -/
def demo10 : List Todo :=
  List.replicate 7 demoDone ++ List.replicate 3 demoTodo

/-! ## Helper lemmas -/

theorem jsTrimList_length_le (l : List Char) : (jsTrimList l).length ≤ l.length := by
  unfold jsTrimList
  calc ((l.dropWhile isSpaceChar).reverse.dropWhile isSpaceChar).reverse.length
      = ((l.dropWhile isSpaceChar).reverse.dropWhile isSpaceChar).length := by
        rw [List.length_reverse]
    _ ≤ (l.dropWhile isSpaceChar).reverse.length :=
        (List.dropWhile_suffix _).sublist.length_le
    _ = (l.dropWhile isSpaceChar).length := by rw [List.length_reverse]
    _ ≤ l.length := (List.dropWhile_suffix _).sublist.length_le

theorem collapseGo_length_le (b : Bool) (l : List Char) :
    (collapseGo b l).length ≤ l.length := by
  induction l generalizing b with
  | nil => simp [collapseGo]
  | cons c rest ih =>
    unfold collapseGo
    by_cases h : isSpaceChar c
    · simp only [h, if_true]
      by_cases hb : b
      · simp only [hb, if_true]
        exact Nat.le_succ_of_le (ih true)
      · simp only [hb, if_false, List.length_cons]
        exact Nat.succ_le_succ (ih true)
    · simp only [h, if_false, List.length_cons]
      exact Nat.succ_le_succ (ih false)

theorem capWords_length (b : Bool) (l : List Char) :
    (capWords b l).length = l.length := by
  induction l generalizing b with
  | nil => rfl
  | cons c rest ih => simp [capWords, ih]

theorem preprocessInput_length_le (s : String) :
    (preprocessInput s).length ≤ s.length := by
  calc (preprocessInput s).length
      = ((capWords false ((collapseWs (jsTrimList s.toList)).map Char.toLower)).filter
        allowedChar).length := rfl
    _ ≤ (capWords false ((collapseWs (jsTrimList s.toList)).map Char.toLower)).length :=
        List.length_filter_le _ _
    _ = ((collapseWs (jsTrimList s.toList)).map Char.toLower).length := capWords_length _ _
    _ = (collapseWs (jsTrimList s.toList)).length := List.length_map _ _
    _ ≤ (jsTrimList s.toList).length := collapseGo_length_le _ _
    _ ≤ s.toList.length := jsTrimList_length_le _
    _ = s.length := rfl

theorem jsTrimStr_length_le (s : String) : (jsTrimStr s).length ≤ s.length :=
  jsTrimList_length_le s.toList

theorem meaningfulLen_le (s : String) : meaningfulLen s ≤ s.length :=
  List.length_filter_le _ _

/-- A string with a parseable date has exactly the `YYYY-MM-DD` shape. -/
theorem dateRegexMatch_of_parse {s : String} {v : Int} (h : jsDateParse s = some v) :
    dateRegexMatch s = true := by
  unfold jsDateParse at h
  unfold dateRegexMatch
  split at h
  next y1 y2 y3 y4 h1 m1 m2 h2 d1 d2 heq =>
    split at h
    next hcond => exact hcond
    next => exact absurd h (by simp)
  next => exact absurd h (by simp)

theorem jsDateParse_ne_empty {v : Int} (h : jsDateParse ("") = some v) : False := by
  simp [jsDateParse] at h

/-! ### Stable sorting lemmas -/

theorem filter_orderedInsert_of_key_eq {α γ : Type} [LinearOrder γ] (k : α → γ) (v : γ)
    (a : α) (l : List α) (ha : k a = v) :
    (l.orderedInsert (keyLe k) a).filter (fun x => decide (k x = v))
      = a :: l.filter (fun x => decide (k x = v)) := by
  induction l with
  | nil => simp [List.orderedInsert, ha]
  | cons b l ih =>
    by_cases hab : keyLe k a b
    · rw [List.orderedInsert_of_le (keyLe k) l hab]
      simp [List.filter_cons, ha]
    · have hb : ¬ (k b = v) := by
        intro hbv
        exact hab (le_of_eq (by rw [ha, hbv]))
      simp [List.orderedInsert, hab, List.filter_cons, hb, ih]

theorem filter_orderedInsert_of_key_ne {α γ : Type} [LinearOrder γ] (k : α → γ) (v : γ)
    (a : α) (l : List α) (ha : ¬ (k a = v)) :
    (l.orderedInsert (keyLe k) a).filter (fun x => decide (k x = v))
      = l.filter (fun x => decide (k x = v)) := by
  induction l with
  | nil => simp [List.orderedInsert, ha]
  | cons b l ih =>
    by_cases hab : keyLe k a b
    · rw [List.orderedInsert_of_le (keyLe k) l hab]
      simp [List.filter_cons, ha]
    · simp [List.orderedInsert, hab, List.filter_cons, ih]

/-- Stability of the embedded sort: the elements whose key equals any
fixed value appear in the output exactly as they do in the input. -/
theorem filter_insertionSort_key {α γ : Type} [LinearOrder γ] (k : α → γ) (v : γ)
    (l : List α) :
    (l.insertionSort (keyLe k)).filter (fun x => decide (k x = v))
      = l.filter (fun x => decide (k x = v)) := by
  induction l with
  | nil => rfl
  | cons a l ih =>
    show ((l.insertionSort (keyLe k)).orderedInsert (keyLe k) a).filter _ = _
    by_cases ha : k a = v
    · rw [filter_orderedInsert_of_key_eq k v a _ ha, ih]
      simp [List.filter_cons, ha]
    · rw [filter_orderedInsert_of_key_ne k v a _ ha, ih]
      simp [List.filter_cons, ha]

/-! ### Parse-route analysis lemmas -/

theorem meaningfulLen_empty : meaningfulLen ("") = 0 := rfl

theorem validateInput_eq_none {s : String} (h2 : 2 ≤ meaningfulLen s)
    (h500 : s.length ≤ 500) : validateInput s = none := by
  have hms : meaningfulLen s ≤ s.length := meaningfulLen_le s
  have h0 : ¬ (s.length = 0) := by omega
  have hm0 : ¬ (meaningfulLen s = 0) := by omega
  have hm2 : ¬ (meaningfulLen s < 2) := by omega
  have h5 : ¬ (s.length > 500) := by omega
  simp [validateInput, h0, hm0, hm2, h5]

theorem input_ne_empty {s : String} (h2 : 2 ≤ meaningfulLen s) : s ≠ ("") := by
  intro h
  rw [h] at h2
  exact absurd h2 (by decide)

/-- Under the declared input bounds, validation passes and the handler's
result is decided by the model outcome alone. -/
theorem parseTodoPOST_valid (today : String) {input : String} (m : ModelOutcome)
    (h2 : 2 ≤ meaningfulLen input) (h500 : input.length ≤ 500) :
    parseTodoPOST today (some input) m
      = match m with
        | .unparseable => .fail 500 none
        | .parsed d => .ok (buildDraft today (preprocessInput input) d) := by
  simp only [parseTodoPOST]
  rw [if_neg (input_ne_empty h2), validateInput_eq_none h2 h500]

/-- A successful parse comes from the `parsed` branch. -/
theorem parseTodoPOST_ok {today : String} {input : Option String} {m : ModelOutcome}
    {dr : TaskDraft} (h : parseTodoPOST today input m = .ok dr) :
    ∃ s d, input = some s ∧ m = .parsed d ∧ dr = buildDraft today (preprocessInput s) d := by
  match input, m with
  | none, _ => exact absurd h (by simp [parseTodoPOST])
  | some s, .unparseable =>
    exfalso
    simp only [parseTodoPOST] at h
    by_cases h0 : s = ""
    · simp [h0] at h
    · rw [if_neg h0] at h
      cases hv : validateInput s <;> rw [hv] at h <;> simp at h
  | some s, .parsed d =>
    refine ⟨s, d, rfl, rfl, ?_⟩
    simp only [parseTodoPOST] at h
    by_cases h0 : s = ""
    · simp [h0] at h
    · rw [if_neg h0] at h
      cases hv : validateInput s <;> rw [hv] at h <;> simp at h
      exact h.symm

/-- The due-date field of a built draft: either reset to `today`, or the
model's string, kept only when it is not an (unambiguously) earlier date
and has the `YYYY-MM-DD` shape. -/
theorem buildDraft_due_date_spec (today processed : String) (pd : ParsedTodoData) :
    (buildDraft today processed pd).due_date = today ∨
    (∃ s, pd.due_date = some s ∧ (buildDraft today processed pd).due_date = s ∧
      jsDateLt s today = false ∧ dateRegexMatch s = true) := by
  unfold buildDraft postprocessData
  cases hdd : pd.due_date with
  | none =>
    by_cases hr : dateRegexMatch today = true <;> simp [hdd, hr]
  | some s =>
    by_cases hs : s = ""
    · subst hs
      by_cases hr : dateRegexMatch today = true <;> simp [hdd, hr]
    · by_cases hlt : jsDateLt s today = true
      · by_cases hr : dateRegexMatch today = true <;> simp [hdd, hs, hlt, hr]
      · by_cases hr : dateRegexMatch s = true
        · right
          refine ⟨s, rfl, ?_, by simpa using hlt, hr⟩
          simp [hdd, hs, hlt, hr]
        · left
          simp [hdd, hs, hlt, hr]

theorem buildDraft_due (today processed : String) (pd : ParsedTodoData) {td : Int}
    (htd : jsDateParse today = some td) :
    dateRegexMatch (buildDraft today processed pd).due_date = true ∧
    ∀ dd, jsDateParse (buildDraft today processed pd).due_date = some dd → td ≤ dd := by
  rcases buildDraft_due_date_spec today processed pd with h | ⟨s, _, h, hlt, hr⟩
  · rw [h]
    refine ⟨dateRegexMatch_of_parse htd, ?_⟩
    intro dd hdd
    rw [htd] at hdd
    exact le_of_eq (Option.some_injective _ hdd)
  · rw [h]
    refine ⟨hr, ?_⟩
    intro dd hdd
    unfold jsDateLt at hlt
    rw [hdd, htd] at hlt
    simpa using hlt

/-- The clamp `Math.max(1, Math.min(3, x))` stays inside `[1, 3]` for
every JS number `x`. -/
theorem max_min_range (x : ℚ) :
    1 ≤ max 1 (min 3 x) ∧ max 1 (min 3 x) ≤ 3 :=
  ⟨le_max_left _ _, max_le (by norm_num) (min_le_left _ _)⟩

/-- The clamp of an integer JS number lands on 1, 2 or 3. -/
theorem max_min_int_mem (n : ℤ) :
    max 1 (min 3 ((n : ℚ))) = 1 ∨ max 1 (min 3 ((n : ℚ))) = 2 ∨
    max 1 (min 3 ((n : ℚ))) = 3 := by
  rcases le_total n 1 with h | h
  · left
    have h' : ((n : ℚ)) ≤ 1 := by exact_mod_cast h
    rw [min_eq_right (le_trans h' (by norm_num)), max_eq_left h']
  · rcases le_total n 3 with h3 | h3
    · have h' : (1 : ℚ) ≤ ((n : ℚ)) := by exact_mod_cast h
      have h3' : ((n : ℚ)) ≤ 3 := by exact_mod_cast h3
      rw [min_eq_right h3', max_eq_right h']
      have : n = 1 ∨ n = 2 ∨ n = 3 := by omega
      rcases this with rfl | rfl | rfl
      · left; norm_num
      · right; left; norm_num
      · right; right; norm_num
    · right; right
      have h3' : (3 : ℚ) ≤ ((n : ℚ)) := by exact_mod_cast h3
      rw [min_eq_left h3']
      exact max_eq_right (by norm_num)

/-- The clamped priority of a built draft is always in `[1, 3]`. -/
theorem buildDraft_priority_range (today processed : String) (pd : ParsedTodoData) :
    1 ≤ (buildDraft today processed pd).priority ∧
    (buildDraft today processed pd).priority ≤ 3 := by
  have heq : (buildDraft today processed pd).priority
      = max 1 (min 3 (match (postprocessData today pd).priority with
          | some q => if q ≠ 0 then q else 2
          | none => 2)) := rfl
  rw [heq]
  exact max_min_range _

/-- The clamp applied to the falsy-defaulted value 2. -/
theorem max_min_two : max (1 : ℚ) (min 3 2) = 2 := by
  rw [min_eq_right (by norm_num : (2 : ℚ) ≤ 3)]
  exact max_eq_right (by norm_num)

/-- When the model's priority is absent or an integer, the built draft's
priority is 1, 2 or 3. -/
theorem buildDraft_priority_int (today processed : String) (pd : ParsedTodoData)
    (hint : ∀ q, pd.priority = some q → q.den = 1) :
    (buildDraft today processed pd).priority = 1 ∨
    (buildDraft today processed pd).priority = 2 ∨
    (buildDraft today processed pd).priority = 3 := by
  have heq : (buildDraft today processed pd).priority
      = max 1 (min 3 (match (match pd.priority with
          | some p => if p ≠ 0 ∧ (p < 1 ∨ p > 3) then some 2 else some p
          | none => none) with
          | some p => if p ≠ 0 then p else 2
          | none => (2 : ℚ))) := rfl
  rw [heq]
  cases hp : pd.priority with
  | none =>
    right; left
    exact max_min_two
  | some q =>
    have hden : q.den = 1 := hint q hp
    have hqint : ((q.num : ℚ)) = q := by
      conv_rhs => rw [← Rat.num_div_den q]
      rw [hden]
      norm_num
    by_cases hcl : q ≠ 0 ∧ (q < 1 ∨ q > 3)
    · right; left
      simp only [if_pos hcl]
      exact max_min_two
    · by_cases hz : q = 0
      · right; left
        subst hz
        simp only [if_neg hcl]
        exact max_min_two
      · simp only [if_neg hcl]
        rw [if_pos hz]
        rw [← hqint]
        exact max_min_int_mem q.num

theorem string_mk_length (l : List Char) : (String.mk l).length = l.length := rfl

/-- The title of a built draft: the trimmed preprocessed input when the
model's title is falsy, otherwise a non-empty string of at most 203
characters. -/
theorem buildDraft_title_spec (today processed : String) (pd : ParsedTodoData) :
    ((buildDraft today processed pd).title = jsTrimStr processed ∧ strTruthy pd.title = false) ∨
    ((buildDraft today processed pd).title ≠ ("") ∧
      (buildDraft today processed pd).title.length ≤ 203 ∧ strTruthy pd.title = true) := by
  unfold buildDraft postprocessData
  cases ht : pd.title with
  | none =>
    left
    exact ⟨by simp [ht], by simp [strTruthy]⟩
  | some s0 =>
    by_cases h0 : s0 = ""
    · subst h0
      left
      exact ⟨by simp [ht], by simp [strTruthy]⟩
    · right
      by_cases hlong : s0.length > 200
      · have hmin : (200 : ℕ) ⊓ s0.length = 200 := min_eq_left (by omega)
        have hdots : ("..." : String).length = 3 := rfl
        have hne : String.mk (s0.data.take 200) ++ ("...") ≠ ("") := by
          intro h
          have hz : (String.mk (s0.data.take 200) ++ ("...")).length = 0 := by
            rw [h]; rfl
          rw [String.length_append, hdots] at hz
          omega
        refine ⟨?_, ?_, by simp [strTruthy, h0]⟩
        · simp [ht, h0, hlong, hmin, hdots, hne]
        · simp [ht, h0, hlong, hmin, hdots, hne]
      · by_cases h2 : s0.length < 2
        · have hph : ("새 할 일" : String) ≠ ("") := by decide
          have hphlen : ("새 할 일" : String).length = 5 := rfl
          refine ⟨?_, ?_, by simp [strTruthy, h0]⟩
          · simp [ht, h0, hlong, h2]
          · simp [ht, h0, hlong, h2, hphlen]
        · refine ⟨?_, ?_, by simp [strTruthy, h0]⟩
          · simp [ht, h0, hlong, h2]
          · simp [ht, h0, hlong, h2]
            omega

theorem tagStrings_map_str (l : List String) : tagStrings (some (l.map TagEntry.str)) = l := by
  induction l with
  | nil => rfl
  | cons a l ih =>
    simp only [tagStrings, Option.getD_some, List.map_cons, List.filterMap_cons] at ih ⊢
    rw [ih]

theorem buildDraft_tags (today processed : String) (pd : ParsedTodoData) :
    (buildDraft today processed pd).tags.length ≤ 3 ∧
    ∀ t ∈ (buildDraft today processed pd).tags, t ≠ ("") ∧ ∃ s0, t = jsTrimStr s0 := by
  have htags : (buildDraft today processed pd).tags
      = match pd.tags with
        | some l => (l.filterMap (fun e => match e with
            | .str s => if jsTrimStr s ≠ "" then some (jsTrimStr s) else none
            | .nonstr => none)).take 3
        | none => [] := by
    show tagStrings (postprocessData today pd).tags = _
    unfold postprocessData
    cases htg : pd.tags with
    | none =>
      show tagStrings (some (([] : List String).map TagEntry.str)) = _
      rw [tagStrings_map_str]
    | some l =>
      show tagStrings (some (((l.filterMap _).take 3).map TagEntry.str)) = _
      rw [tagStrings_map_str]
  rw [htags]
  cases htg : pd.tags with
  | none => simp
  | some l =>
    constructor
    · calc (List.take 3 (l.filterMap _)).length = min 3 (l.filterMap _).length :=
          List.length_take _ _
        _ ≤ 3 := min_le_left _ _
    · intro t ht
      have ht' := List.mem_of_mem_take ht
      obtain ⟨e, he, hfe⟩ := List.mem_filterMap.mp ht'
      cases e with
      | str s =>
        by_cases hs : jsTrimStr s = ""
        · simp [hs] at hfe
        · simp only [ne_eq, hs, not_false_eq_true, if_true, Option.some_inj] at hfe
          exact ⟨hfe ▸ hs, s, hfe.symm⟩
      | nonstr => simp at hfe

theorem buildDraft_time (today processed : String) (pd : ParsedTodoData) :
    ∀ u, (buildDraft today processed pd).due_time = some u → timeRegexMatch u = true := by
  intro u hu
  have heq : (buildDraft today processed pd).due_time
      = match (match pd.due_time with
          | some s => if s ≠ "" then some s else none
          | none => (none : Option String)) with
        | some t => if timeRegexMatch t then some t else none
        | none => none := rfl
  rw [heq] at hu
  cases hdt : pd.due_time with
  | none => rw [hdt] at hu; simp at hu
  | some s =>
    rw [hdt] at hu
    by_cases hs : s = ""
    · simp [hs] at hu
    · simp only [ne_eq, hs, not_false_eq_true, if_true] at hu
      by_cases hr : timeRegexMatch s = true
      · simp only [hr, if_true, Option.some_inj] at hu
        rw [← hu]
        exact hr
      · simp [hr] at hu

/-! ## Claim C2 -/

/-- C2 counterexample: the claim says `parse("")` fails with code
`EMPTY_INPUT`, but the endpoint's falsy-input guard runs first and the
empty string is falsy, so the returned code is `MISSING_INPUT`. -/
theorem C2_counterexample :
    parseTodoPOST ("2025-10-11") (some ("")) ModelOutcome.unparseable
      = ParseResult.fail 400 (some ("MISSING_INPUT")) ∧
    ¬ (("MISSING_INPUT") : String) = ("EMPTY_INPUT") := by
  exact ⟨rfl, by decide⟩

/-- C2 amended: at the endpoint, `parse(null)` and `parse("")` both fail
with `MISSING_INPUT` (the `EMPTY_INPUT` branch of `validateInput` is
unreachable through the route, though the function itself returns it for
`""`), and `parse("   ")` fails with `INVALID_CONTENT`; each failure is an
HTTP 400 whose value is independent of the model outcome, i.e. produced
before any model call. -/
theorem C2_amended (today : String) (m : ModelOutcome) :
    parseTodoPOST today none m = ParseResult.fail 400 (some ("MISSING_INPUT")) ∧
    parseTodoPOST today (some ("")) m = ParseResult.fail 400 (some ("MISSING_INPUT")) ∧
    parseTodoPOST today (some ("   ")) m = ParseResult.fail 400 (some ("INVALID_CONTENT")) ∧
    validateInput ("") = some ("EMPTY_INPUT") := by
  exact ⟨rfl, rfl, rfl, rfl⟩

/-! ## Claim C5 -/

/-- C5 counterexample: the claim says DELETE on a task id owned by
another user returns 404; the handler returns the 200
deletion-confirmation (the delete query has no `.single()`), deleting
nothing. -/
theorem C5_counterexample :
    (deleteTodo [demoRow] (some 1) 1).1.status = 200 ∧
    ¬ (deleteTodo [demoRow] (some 1) 1).1.status = 404 ∧
    (deleteTodo [demoRow] (some 1) 1).2 = [demoRow] := by
  decide

/-- C5 amended: for an authenticated user and a task id that does not
exist or belongs to another user, PUT returns 404 (given a body passing
title validation) and mutates no stored row, while DELETE returns the 200
deletion confirmation — not 404 — and deletes no row. -/
theorem C5_amended (store : List StoredTodo) (uid todoId : Nat) (body : UpdateBody)
    (hmiss : ∀ t ∈ store, ¬ (t.id = todoId ∧ t.user_id = uid))
    (htitle : titleInvalid body = false) :
    (putTodo store (some uid) todoId body).1 = TodoRouteResult.err 404 ∧
    (putTodo store (some uid) todoId body).2 = store ∧
    (deleteTodo store (some uid) todoId).1 = TodoRouteResult.okMsg ∧
    (deleteTodo store (some uid) todoId).2 = store := by
  have hpred : ∀ t ∈ store, (t.id == todoId && t.user_id == uid) = false := by
    intro t ht
    by_cases h1 : t.id = todoId
    · by_cases h2 : t.user_id = uid
      · exact absurd ⟨h1, h2⟩ (hmiss t ht)
      · simp [h2]
    · simp [h1]
  have hfil : store.filter (fun t => t.id == todoId && t.user_id == uid) = [] :=
    List.filter_eq_nil_iff.mpr (fun t ht => by simp [hpred t ht])
  have hput : putTodo store (some uid) todoId body = (.err 404, store) := by
    simp only [putTodo, htitle, Bool.false_eq_true, if_false, hfil]
    have hcon : ∀ t ∈ store, (if t.id == todoId && t.user_id == uid
        then applyUpdate body t else t) = t := by
      intro t ht
      rw [hpred t ht]
      simp
    rw [List.map_congr_left hcon, List.map_id']
  have hdelete : deleteTodo store (some uid) todoId = (.okMsg, store) := by
    have hdel : store.filter (fun t => !(t.id == todoId && t.user_id == uid)) = store :=
      List.filter_eq_self.mpr (fun t ht => by simp [hpred t ht])
    simp only [deleteTodo, hdel]
  rw [hput, hdelete]
  exact ⟨rfl, rfl, rfl, rfl⟩

/-- C5 witness: the amended claim at a concrete store (one row owned by
user 2) and caller user 1. -/
theorem C5_witness :
    (putTodo [demoRow] (some 1) 1 {}).1 = TodoRouteResult.err 404 ∧
    (putTodo [demoRow] (some 1) 1 {}).2 = [demoRow] ∧
    (deleteTodo [demoRow] (some 1) 1).1 = TodoRouteResult.okMsg ∧
    (deleteTodo [demoRow] (some 1) 1).2 = [demoRow] :=
  C5_amended [demoRow] 1 1 {} (by decide) rfl

/-! ## Claim C10 -/

/-- C10: an update request whose body carries a title that is empty or
whitespace-only is rejected with 400 and the store is left unchanged (the
update query is never issued). -/
theorem C10_emptyTitleNoMutation (store : List StoredTodo) (uid todoId : Nat)
    (body : UpdateBody) (s : String) (hs : body.title = some (.jstr s))
    (hempty : jsTrimStr s = ("")) :
    (putTodo store (some uid) todoId body).1 = TodoRouteResult.err 400 ∧
    (putTodo store (some uid) todoId body).2 = store := by
  have hbad : titleInvalid body = true := by
    simp only [titleInvalid, hs]
    simp [hempty]
  simp [putTodo, hbad]

/-- C10 witness: the claim at a concrete whitespace-only title. -/
theorem C10_witness :
    (putTodo [demoRow] (some 2) 1 { title := some (.jstr ("   ")) }).1
      = TodoRouteResult.err 400 ∧
    (putTodo [demoRow] (some 2) 1 { title := some (.jstr ("   ")) }).2 = [demoRow] :=
  C10_emptyTitleNoMutation [demoRow] 2 1 _ ("   ") rfl (by decide)

/-! ## Claim C9 -/

/-- C9: `completionRate` is 100 × completed / total rounded half-up
(`⌊· + 1/2⌋`), 0 for an empty set; 7 completed of 10 gives 70, and an
all-completed non-empty set gives 100. -/
theorem C9_completionRate (ts : List Todo) :
    (ts.length = 0 → completionRate ts = 0) ∧
    (ts.length ≠ 0 → completionRate ts
      = ⌊100 * (((completedTodos ts).length : ℚ)) / ((ts.length : ℚ)) + 1 / 2⌋) ∧
    (ts.length = 10 → (completedTodos ts).length = 7 → completionRate ts = 70) ∧
    (ts.length ≠ 0 → (∀ t ∈ ts, t.status = ("completed")) → completionRate ts = 100) := by
  refine ⟨?_, ?_, ?_, ?_⟩
  · intro h
    simp [completionRate, h]
  · intro h
    have hpos : ts.length > 0 := Nat.pos_of_ne_zero h
    simp only [completionRate, jsRound, if_pos hpos]
    congr 1
    ring
  · intro h10 h7
    simp only [completionRate, jsRound, h10, h7]
    norm_num
  · intro h hall
    have hcomp : completedTodos ts = ts := by
      apply List.filter_eq_self.mpr
      intro t ht
      simp [hall t ht]
    have hq : ((ts.length : ℚ)) ≠ 0 := by
      exact_mod_cast h
    simp only [completionRate, jsRound, if_pos (Nat.pos_of_ne_zero h), hcomp]
    rw [div_self hq, one_mul]
    refine Int.floor_eq_iff.mpr ⟨by norm_num, by norm_num⟩

/-- C9 witness: the 7-of-10 scenario at a concrete record set. -/
theorem C9_witness : completionRate demo10 = 70 :=
  (C9_completionRate demo10).2.2.1 (by decide) (by decide)

/-! ## Claim C1 -/

/-- C1 counterexample: the claim says a summary request whose model
response has no parseable JSON still returns a success; on a non-empty
record set the handler returns HTTP 500 with code `PARSE_ERROR`. -/
theorem C1_counterexample :
    summaryPOST ("today") (some 1) [demoTodo] [] ("2025-10-11") 0
      SummaryModelOutcome.unparseable = SummaryResult.err 500 (some ("PARSE_ERROR")) ∧
    (summaryPOST ("today") (some 1) [demoTodo] [] ("2025-10-11") 0
      SummaryModelOutcome.unparseable).isOk = false := by
  exact ⟨rfl, rfl⟩

/-- C1 amended: on a non-empty record set, a model response with no
parseable JSON makes the summary endpoint fail with HTTP 500 and code
`PARSE_ERROR`; the per-field deterministic defaults apply only when a
JSON object is parsed, in which case the response is a success with every
`SummaryReport` field populated. -/
theorem C1_amended (period : String) (uid : Nat) (todos previousTodos : List Todo)
    (today : String) (nowMs : Int)
    (hperiod : period = ("today") ∨ period = ("week")) (hne : todos ≠ []) :
    summaryPOST period (some uid) todos previousTodos today nowMs .unparseable
      = SummaryResult.err 500 (some ("PARSE_ERROR")) ∧
    ∀ d : SummaryParsedData,
      (summaryPOST period (some uid) todos previousTodos today nowMs (.parsed d)).isOk
        = true ∧
      fullyPopulated ((summaryPOST period (some uid) todos previousTodos today nowMs
        (.parsed d)).respD) = true := by
  have hlen : ¬ (todos.length = 0) := by
    simpa [List.length_eq_zero] using hne
  rcases hperiod with rfl | rfl <;>
    exact ⟨by simp [summaryPOST, hlen],
      fun d => ⟨by simp [summaryPOST, hlen, SummaryResult.isOk],
        by simp [summaryPOST, hlen, SummaryResult.respD, fullyPopulated,
          buildSummaryResponse]⟩⟩

/-- C1 witness: the amended claim at a concrete non-empty record set. -/
theorem C1_witness :
    summaryPOST ("today") (some 1) [demoTodo] [] ("2025-10-11") 0
      SummaryModelOutcome.unparseable = SummaryResult.err 500 (some ("PARSE_ERROR")) ∧
    (summaryPOST ("today") (some 1) [demoTodo] [] ("2025-10-11") 0
      (SummaryModelOutcome.parsed {})).isOk = true ∧
    fullyPopulated ((summaryPOST ("today") (some 1) [demoTodo] [] ("2025-10-11") 0
      (SummaryModelOutcome.parsed {})).respD) = true := by
  have h := C1_amended ("today") 1 [demoTodo] [] ("2025-10-11") 0 (Or.inl rfl) (by decide)
  exact ⟨h.1, (h.2 {}).1, (h.2 {}).2⟩

/-! ## Claim C6 -/

/-- C6 counterexample: the claim says every successful summary response,
including for the empty record set, carries every `SummaryReport` field;
the empty-set early return is a success that omits `remainingTodos` (and
five other fields). -/
theorem C6_counterexample :
    (summaryPOST ("today") (some 1) [] [] ("2025-10-11") 0
      SummaryModelOutcome.unparseable).isOk = true ∧
    (summaryPOST ("today") (some 1) [] [] ("2025-10-11") 0
      SummaryModelOutcome.unparseable).respD.remainingTodos = none ∧
    (summaryPOST ("today") (some 1) [] [] ("2025-10-11") 0
      SummaryModelOutcome.unparseable).respD.focusTasks = none := by
  exact ⟨rfl, rfl, rfl⟩

/-- C6 amended: every successful summary response for a non-empty record
set has all ten `SummaryReport` fields present; for the empty record set,
the success response carries exactly `summary`, `urgentTasks` (empty),
`insights` and `recommendations`, and omits the other six fields. -/
theorem C6_amended (period : String) (user : Option Nat) (todos previousTodos : List Todo)
    (today : String) (nowMs : Int) (m : SummaryModelOutcome) (r : SummaryResponse)
    (h : summaryPOST period user todos previousTodos today nowMs m = SummaryResult.ok r) :
    (todos ≠ [] → fullyPopulated r = true) ∧
    (todos = [] → r.summary.isSome = true ∧ r.urgentTasks = some [] ∧
      r.insights.isSome = true ∧ r.recommendations.isSome = true ∧
      r.remainingTodos = none ∧ r.focusTasks = none ∧ r.completionAnalysis = none ∧
      r.timeManagement = none ∧ r.productivityPatterns = none ∧ r.motivation = none) := by
  by_cases hper : period = ("today") ∨ period = ("week")
  · rcases hper with rfl | rfl <;>
    · match user with
      | none => exact absurd h (by simp [summaryPOST])
      | some uid =>
        by_cases hlen : todos.length = 0
        · have hnil : todos = [] := List.length_eq_zero.mp hlen
          have h' := h
          simp [summaryPOST, hlen] at h'
          constructor
          · intro hne
            exact absurd hnil hne
          · intro _
            rw [← h']
            exact ⟨rfl, rfl, rfl, rfl, rfl, rfl, rfl, rfl, rfl, rfl⟩
        · constructor
          · intro _
            match m with
            | .unparseable => exact absurd h (by simp [summaryPOST, hlen])
            | .parsed d =>
              have h' := h
              simp [summaryPOST, hlen] at h'
              rw [← h']
              simp [fullyPopulated, buildSummaryResponse]
          · intro hnil
            rw [hnil] at hlen
            exact absurd rfl hlen
  · exact absurd h (by simp [summaryPOST, hper])

/-- C6 witness: the amended claim applied at a concrete non-empty record
set, yielding a fully populated response. -/
theorem C6_witness :
    fullyPopulated ((summaryPOST ("today") (some 1) [demoTodo] [] ("2025-10-11") 0
      (SummaryModelOutcome.parsed {})).respD) = true := by
  have h := C6_amended ("today") (some 1) [demoTodo] [] ("2025-10-11") 0
    (SummaryModelOutcome.parsed {})
    ((summaryPOST ("today") (some 1) [demoTodo] [] ("2025-10-11") 0
      (SummaryModelOutcome.parsed {})).respD) (by rfl)
  exact h.1 (by decide)

/-! ## Claim C8 -/

/-- C8: `remainingTodos` is exactly the pending tasks (a permutation of
their projections), sorted ascending by priority, with equal-priority
tasks kept in their original relative order (the per-priority filters
coincide with the unsorted ones). -/
theorem C8_remainingTodos (ts : List Todo) :
    (remainingTodos ts).Pairwise (fun x y => x.priority ≤ y.priority) ∧
    (remainingTodos ts).Perm ((pendingTodos ts).map todoItem) ∧
    ∀ p : ℤ, (remainingTodos ts).filter (fun x => decide (x.priority = p))
      = ((pendingTodos ts).map todoItem).filter (fun x => decide (x.priority = p)) := by
  refine ⟨?_, ?_, ?_⟩
  · have hs := List.sorted_insertionSort (keyLe Todo.priority) (pendingTodos ts)
    exact hs.map todoItem (fun a b hab => hab)
  · exact (List.perm_insertionSort (keyLe Todo.priority) (pendingTodos ts)).map todoItem
  · intro p
    show (((pendingTodos ts).insertionSort (keyLe Todo.priority)).map todoItem).filter
        (fun x => decide (x.priority = p))
      = ((pendingTodos ts).map todoItem).filter (fun x => decide (x.priority = p))
    rw [List.filter_map, List.filter_map]
    congr 1
    exact filter_insertionSort_key Todo.priority p (pendingTodos ts)

/-! ## Claim C7 -/

/-- C7: `focusTasks` has at most 5 entries; every entry is the projection
of a pending task that is high-priority, due today, or due within the
code's two-day horizon; and among same-priority entries, one due exactly
today is never ordered after one not due today. -/
theorem C7_focusTasks (today : String) (nowMs : Int) (ts : List Todo) :
    (focusTasks today nowMs ts).length ≤ 5 ∧
    (∀ x ∈ focusTasks today nowMs ts, ∃ t, t ∈ ts ∧ t.status = ("pending") ∧
      todoItem t = x ∧
      (t.priority = 1 ∨ t.due_date = some today ∨ isDueSoon nowMs t = true)) ∧
    (focusTasks today nowMs ts).Pairwise
      (fun x y => x.priority = y.priority → y.due_date = some today →
        x.due_date = some today) := by
  refine ⟨?_, ?_, ?_⟩
  · simp only [focusTasks, List.length_map, List.length_take]
    exact min_le_left _ _
  · intro x hx
    simp only [focusTasks] at hx
    obtain ⟨t, ht, rfl⟩ := List.mem_map.mp hx
    have ht1 : t ∈ ((pendingTodos ts).filter (focusPred today nowMs)).insertionSort
        (keyLe (focusKey today)) := List.mem_of_mem_take ht
    have ht2 : t ∈ (pendingTodos ts).filter (focusPred today nowMs) :=
      (List.mem_insertionSort (keyLe (focusKey today))).mp ht1
    obtain ⟨ht3, hpredt⟩ := List.mem_filter.mp ht2
    obtain ⟨ht4, hstat⟩ := List.mem_filter.mp ht3
    refine ⟨t, ht4, by simpa using hstat, rfl, ?_⟩
    simp only [focusPred, Bool.or_eq_true] at hpredt
    rcases hpredt with (h1 | h2) | h3
    · left
      simpa using h1
    · right; left
      simpa [isDueToday] using h2
    · right; right
      exact h3
  · have hs := List.sorted_insertionSort (keyLe (focusKey today))
      ((pendingTodos ts).filter (focusPred today nowMs))
    have htake := hs.sublist (List.take_sublist 5 _)
    refine List.Pairwise.map todoItem ?_ htake
    intro a b hab h1 h2
    have hb : isDueToday today b = true := by
      simp only [isDueToday, beq_iff_eq]
      exact h2
    have hkey := hab
    rw [keyLe, focusKey, focusKey] at hkey
    rw [Prod.Lex.le_iff] at hkey
    rw [hb] at hkey
    rcases hkey with hlt | ⟨heq, _⟩
    · exact absurd hlt (by simp [Bool.lt_iff])
    · have ha : isDueToday today a = true := by
        cases hda : isDueToday today a
        · rw [hda] at heq
          exact absurd heq (by simp)
        · rfl
      simpa [isDueToday, todoItem] using ha

/-- C7 witness: the claim at a concrete record set whose single pending
high-priority task appears in `focusTasks`. -/
theorem C7_witness :
    (focusTasks ("2025-10-11") 0 [demoUrgent]).length ≤ 5 ∧
    (∃ t, t ∈ [demoUrgent] ∧ t.status = ("pending") ∧
      todoItem t = todoItem demoUrgent ∧
      (t.priority = 1 ∨ t.due_date = some ("2025-10-11") ∨ isDueSoon 0 t = true)) := by
  have h := C7_focusTasks ("2025-10-11") 0 [demoUrgent]
  exact ⟨h.1, h.2.1 (todoItem demoUrgent) (by decide)⟩

/-! ## Claim C3 -/

set_option maxRecDepth 8000 in
/-- C3 counterexample: the claim bounds the returned title by 200
characters; a 250-character model title is truncated to 200 and the
3-character ellipsis marker is appended, giving a successful response
whose title has 203 characters.  A fractional model priority of 5/2
passes the range check and the `Math.max`/`Math.min` clamp unchanged, so
a successful response carries priority 5/2 ∉ {1,2,3}.  Moreover, for an
input whose characters are all stripped by the preprocessing allow-list
(two emoji) and a model reply without a title, the successful response's
title is empty, and a model reply with no extractable JSON makes the
endpoint fail with a code-less HTTP 500 rather than a declared code. -/
theorem C3_counterexample :
    ((parseTodoPOST ("2025-10-11") (some ("hi"))
      (.parsed { title := some (String.mk (List.replicate 250 ('a'))) })).draftD.title).length
      = 203 ∧
    (parseTodoPOST ("2025-10-11") (some ("hi"))
      (.parsed { title := some (String.mk (List.replicate 250 ('a'))) })).isOk = true ∧
    (parseTodoPOST ("2025-10-11") (some ("hi"))
      (.parsed { priority := some ((5 : ℚ)/2) })).isOk = true ∧
    (parseTodoPOST ("2025-10-11") (some ("hi"))
      (.parsed { priority := some ((5 : ℚ)/2) })).draftD.priority = (5 : ℚ)/2 ∧
    ¬ ((5 : ℚ)/2 = 1 ∨ (5 : ℚ)/2 = 2 ∨ (5 : ℚ)/2 = 3) ∧
    (parseTodoPOST ("2025-10-11")
      (some (String.mk [Char.ofNat 128512, Char.ofNat 128512]))
      (.parsed {})).draftD.title = ("") ∧
    (parseTodoPOST ("2025-10-11")
      (some (String.mk [Char.ofNat 128512, Char.ofNat 128512]))
      (.parsed {})).isOk = true ∧
    parseTodoPOST ("2025-10-11") (some ("hi")) ModelOutcome.unparseable
      = ParseResult.fail 500 none := by
  have h1 : ¬ ((5 : ℚ)/2 ≠ 0 ∧ ((5 : ℚ)/2 < 1 ∨ (5 : ℚ)/2 > 3)) := by norm_num
  have h2 : ((5 : ℚ)/2) ≠ 0 := by norm_num
  have hprio : (parseTodoPOST ("2025-10-11") (some ("hi"))
      (.parsed { priority := some ((5 : ℚ)/2) })).draftD.priority = (5 : ℚ)/2 := by
    have heq : (parseTodoPOST ("2025-10-11") (some ("hi"))
        (.parsed { priority := some ((5 : ℚ)/2) })).draftD.priority
        = max 1 (min 3 (match (match (some ((5 : ℚ)/2)) with
            | some p => if p ≠ 0 ∧ (p < 1 ∨ p > 3) then some 2 else some p
            | none => none) with
            | some p => if p ≠ 0 then p else 2
            | none => (2 : ℚ))) := rfl
    rw [heq]
    simp only [if_neg h1]
    rw [if_pos h2]
    rw [min_eq_right (by norm_num : (5 : ℚ)/2 ≤ 3)]
    exact max_eq_right (by norm_num)
  refine ⟨by decide, rfl, rfl, hprio, by norm_num, by decide, rfl, rfl⟩

/-- C3 amended: for every input with at least 2 non-whitespace characters
and at most 500 characters and every model outcome, validation passes and
the endpoint either succeeds with a draft whose priority lies in the
interval [1,3] — and is one of {1,2,3} whenever the model's priority is
absent or an integer; a fractional model priority such as 5/2 is returned
unchanged — and whose title has at most 500 characters (at most 203 =
200 + ellipsis when the model supplied a non-empty title) and is
non-empty whenever the model supplied a non-empty title or the trimmed
preprocessed input is non-empty; or — exactly when no JSON object can be
parsed from the model reply — fails with HTTP 500 carrying no declared
code. -/
theorem C3_amended (today input : String)
    (h2 : 2 ≤ meaningfulLen input) (h500 : input.length ≤ 500) :
    parseTodoPOST today (some input) ModelOutcome.unparseable
      = ParseResult.fail 500 none ∧
    ∀ d : ParsedTodoData,
      (parseTodoPOST today (some input) (.parsed d)).isOk = true ∧
      (1 ≤ (parseTodoPOST today (some input) (.parsed d)).draftD.priority ∧
        (parseTodoPOST today (some input) (.parsed d)).draftD.priority ≤ 3) ∧
      ((∀ q, d.priority = some q → q.den = 1) →
        ((parseTodoPOST today (some input) (.parsed d)).draftD.priority = 1 ∨
         (parseTodoPOST today (some input) (.parsed d)).draftD.priority = 2 ∨
         (parseTodoPOST today (some input) (.parsed d)).draftD.priority = 3)) ∧
      (parseTodoPOST today (some input) (.parsed d)).draftD.title.length ≤ 500 ∧
      (strTruthy d.title = true →
        (parseTodoPOST today (some input) (.parsed d)).draftD.title.length ≤ 203) ∧
      ((strTruthy d.title = true ∨ jsTrimStr (preprocessInput input) ≠ ("")) →
        (parseTodoPOST today (some input) (.parsed d)).draftD.title ≠ ("")) := by
  refine ⟨parseTodoPOST_valid today .unparseable h2 h500, ?_⟩
  intro d
  have hvd : parseTodoPOST today (some input) (.parsed d)
      = .ok (buildDraft today (preprocessInput input) d) :=
    parseTodoPOST_valid today (.parsed d) h2 h500
  rw [hvd]
  simp only [ParseResult.isOk, ParseResult.draftD]
  have hspec := buildDraft_title_spec today (preprocessInput input) d
  refine ⟨trivial, buildDraft_priority_range today (preprocessInput input) d,
    buildDraft_priority_int today (preprocessInput input) d, ?_, ?_, ?_⟩
  · rcases hspec with ⟨heq, -⟩ | ⟨-, hlen, -⟩
    · rw [heq]
      calc (jsTrimStr (preprocessInput input)).length
          ≤ (preprocessInput input).length := jsTrimStr_length_le _
        _ ≤ input.length := preprocessInput_length_le input
        _ ≤ 500 := h500
    · exact le_trans hlen (by norm_num)
  · intro htruthy
    rcases hspec with ⟨-, hfalse⟩ | ⟨-, hlen, -⟩
    · rw [htruthy] at hfalse
      exact absurd hfalse (by simp)
    · exact hlen
  · intro hor
    rcases hspec with ⟨heq, hfalse⟩ | ⟨hne, -, -⟩
    · rcases hor with htr | hnz
      · rw [htr] at hfalse
        exact absurd hfalse (by simp)
      · rw [heq]
        exact hnz
    · exact hne

/-- C3 witness: the amended claim at a concrete valid input. -/
theorem C3_witness :
    parseTodoPOST ("2025-10-11") (some ("hi")) ModelOutcome.unparseable
      = ParseResult.fail 500 none ∧
    (parseTodoPOST ("2025-10-11") (some ("hi")) (.parsed {})).isOk = true ∧
    (1 ≤ (parseTodoPOST ("2025-10-11") (some ("hi")) (.parsed {})).draftD.priority ∧
      (parseTodoPOST ("2025-10-11") (some ("hi")) (.parsed {})).draftD.priority ≤ 3) ∧
    (parseTodoPOST ("2025-10-11") (some ("hi")) (.parsed {})).draftD.title.length ≤ 500 := by
  have h := C3_amended ("2025-10-11") ("hi") (by decide) (by decide)
  exact ⟨h.1, (h.2 {}).1, (h.2 {}).2.1, (h.2 {}).2.2.2.1⟩

/-! ## Claim C4 -/

/-- C4 counterexample: the claim says every returned due_date denotes a
calendar date and every present due_time is in two-digit `HH:MM` format;
a model reply with due_date `2025-13-40` (month 13, day 40) passes the
shape check unclamped — the invalid-date comparison is false — and a
due_time of `9:30` passes the code's optional-leading-digit pattern, so
both are returned as-is in a successful response. -/
theorem C4_counterexample :
    (parseTodoPOST ("2025-10-11") (some ("hi"))
      (.parsed { due_date := some ("2025-13-40"), due_time := some ("9:30") })).isOk
      = true ∧
    (parseTodoPOST ("2025-10-11") (some ("hi"))
      (.parsed { due_date := some ("2025-13-40"),
                 due_time := some ("9:30") })).draftD.due_date = ("2025-13-40") ∧
    jsDateParse ("2025-13-40") = none ∧
    (parseTodoPOST ("2025-10-11") (some ("hi"))
      (.parsed { due_date := some ("2025-13-40"),
                 due_time := some ("9:30") })).draftD.due_time = some ("9:30") ∧
    specHHMM ("9:30") = false := by
  exact ⟨rfl, by decide, rfl, by decide, rfl⟩

/-- C4 amended: every draft returned by parse has a due_date matching
the `\d{4}-\d{2}-\d{2}` shape, and when that string denotes a valid
calendar date the date is not earlier than today; tags has at most 3
entries, each a non-empty trimmed string; and due_time is either absent
or matches the code's 24-hour pattern, which admits a single-digit
hour. -/
theorem C4_amended (today : String) (input : Option String) (m : ModelOutcome)
    (dr : TaskDraft) (td : Int) (htd : jsDateParse today = some td)
    (hok : parseTodoPOST today input m = ParseResult.ok dr) :
    dateRegexMatch dr.due_date = true ∧
    (∀ dd, jsDateParse dr.due_date = some dd → td ≤ dd) ∧
    dr.tags.length ≤ 3 ∧
    (∀ t ∈ dr.tags, t ≠ ("") ∧ ∃ s0, t = jsTrimStr s0) ∧
    (∀ u, dr.due_time = some u → timeRegexMatch u = true) := by
  obtain ⟨s, d, -, -, rfl⟩ := parseTodoPOST_ok hok
  obtain ⟨hregex, hge⟩ := buildDraft_due today (preprocessInput s) d htd
  obtain ⟨htlen, htmem⟩ := buildDraft_tags today (preprocessInput s) d
  exact ⟨hregex, hge, htlen, htmem, buildDraft_time today (preprocessInput s) d⟩

/-- C4 witness: the amended claim at a concrete model reply with a future
due date, a time, and an untrimmed tag. -/
theorem C4_witness :
    dateRegexMatch ((parseTodoPOST ("2025-10-11") (some ("hi"))
      (.parsed { due_date := some ("2026-01-02"), due_time := some ("09:30"),
                 tags := some [.str (" work ")] })).draftD.due_date) = true ∧
    (1760140800000 : Int) ≤ 1767312000000 ∧
    (parseTodoPOST ("2025-10-11") (some ("hi"))
      (.parsed { due_date := some ("2026-01-02"), due_time := some ("09:30"),
                 tags := some [.str (" work ")] })).draftD.tags.length ≤ 3 ∧
    ¬ (("work") : String) = ("") ∧
    timeRegexMatch ("09:30") = true := by
  have h := C4_amended ("2025-10-11") (some ("hi"))
    (.parsed { due_date := some ("2026-01-02"), due_time := some ("09:30"),
               tags := some [.str (" work ")] })
    ((parseTodoPOST ("2025-10-11") (some ("hi"))
      (.parsed { due_date := some ("2026-01-02"), due_time := some ("09:30"),
                 tags := some [.str (" work ")] })).draftD)
    1760140800000 (by decide) rfl
  refine ⟨h.1, ?_, h.2.2.1, ?_, ?_⟩
  · exact h.2.1 1767312000000 (by decide)
  · exact (h.2.2.2.1 ("work") (by decide)).1
  · exact h.2.2.2.2 ("09:30") (by decide)

end AiTodo
